import Mathlib

/-!
Shallow embedding of `fbref_data_downloader.py`.

The repository downloads per-team match-log tables, caches them on disk,
cleans them into a uniform schema and merges all teams into one combined
dataset.  We model pandas DataFrames as a list of column labels together
with a list of rows, each row an association list from column labels to
cells.  A cell is either missing (`na`, modelling NaN/NaT), a string, a
rational number (modelling pandas numerics) or a parsed date (modelled as
an integer ordinal).  Library parsing routines (`pd.to_numeric` on a
string, `pd.to_datetime` on a string) are abstracted as explicit parse
functions passed to the embedded code; the cleaning logic itself is
translated line by line from `clean_matchlog`.
-/

/-- Column labels of the DataFrames moved through the pipeline.  The fixed
labels are those named in `clean_matchlog`; `other` covers any further raw
column coming from the remote table. -/
inductive Col where
  | Date | Comp | Venue | Result | GF | GA | xG | xGA | Poss | Opponent | Team | Season
  | GoalDiff | xGDiff | Outcome
  | other (label : String)
deriving DecidableEq, Repr

/-- One cell of a DataFrame.  `na` models a missing value (NaN/NaT). -/
inductive Cell where
  | na
  | str (s : String)
  | num (q : ℚ)
  | date (d : ℤ)
deriving DecidableEq, Repr

/-- A row: association list from column labels to cells. -/
abbrev Row := List (Col × Cell)

/-- Reading a cell of a row; a label the row does not carry reads as
missing (pandas fills absent cells of a present column with NaN). -/
def getCell : Row → Col → Cell
  | [], _ => Cell.na
  | (c, v) :: r, c0 => if c = c0 then v else getCell r c0

/-- Writing one cell of a row, appending the label if it is absent. -/
def setCell : Row → Col → Cell → Row
  | [], c0, v0 => [(c0, v0)]
  | (c, v) :: r, c0, v0 => if c = c0 then (c0, v0) :: r else (c, v) :: setCell r c0 v0

/-- A pandas DataFrame: the list of its column labels plus its rows. -/
structure DataFrame where
  cols : List Col
  rows : List Row
deriving DecidableEq, Repr

/-- Column selection `df[c]`: a KeyError unless the label is present. -/
def colVals (df : DataFrame) (c : Col) : Except String (List Cell) :=
  if c ∈ df.cols then Except.ok (df.rows.map (fun r => getCell r c)) else Except.error "KeyError"

/-- Column assignment `df[c] = vals` with a value per row: replaces the
column when present, appends it otherwise. -/
def setCol (df : DataFrame) (c : Col) (vals : List Cell) : DataFrame :=
  { cols := if c ∈ df.cols then df.cols else df.cols ++ [c],
    rows := (df.rows.zip vals).map (fun p => setCell p.1 c p.2) }

/-- Column assignment `df[c] = v` broadcasting one scalar to every row. -/
def setColConst (df : DataFrame) (c : Col) (v : Cell) : DataFrame :=
  { cols := if c ∈ df.cols then df.cols else df.cols ++ [c],
    rows := df.rows.map (fun r => setCell r c v) }

/-- The fixed projection schema of `clean_matchlog` (its `useful_cols`). -/
def useful_cols : List Col :=
  [Col.Date, Col.Comp, Col.Venue, Col.Result, Col.GF, Col.GA, Col.xG, Col.xGA,
   Col.Poss, Col.Opponent, Col.Team, Col.Season]

/-- The five columns coerced with `pd.to_numeric` in `clean_matchlog`. -/
def numeric_cols : List Col := [Col.GF, Col.GA, Col.xG, Col.xGA, Col.Poss]

/-- The columns of the projected frame: `[c for c in useful_cols if c in df.columns]`. -/
def keepCols (df : DataFrame) : List Col :=
  useful_cols.filter (fun c => decide (c ∈ df.cols))

/-- Row part of the projection `df[[c for c in useful_cols if c in df.columns]]`. -/
def projectRow (kp : List Col) (r : Row) : Row := kp.map (fun c => (c, getCell r c))

/-- The projection `df[[c for c in useful_cols if c in df.columns]].copy()`. -/
def projectDF (df : DataFrame) : DataFrame :=
  { cols := keepCols df, rows := df.rows.map (projectRow (keepCols df)) }

/-- One cell under `pd.to_numeric(_, errors='coerce')`: numbers pass
through, strings go through the numeric parser `pnum`, anything else
(including missing) coerces to missing. -/
def toNumericCell (pnum : String → Option ℚ) : Cell → Cell
  | Cell.num q => Cell.num q
  | Cell.str s => match pnum s with | some q => Cell.num q | none => Cell.na
  | _ => Cell.na

/-- One loop iteration `df[col] = pd.to_numeric(df[col], errors='coerce')`. -/
def numStep (pnum : String → Option ℚ) (df : DataFrame) (c : Col) : Except String DataFrame := do
  let vals ← colVals df c
  return setCol df c (vals.map (toNumericCell pnum))

/-- Elementwise subtraction of two pandas series: NaN propagates. -/
def cellSub : Cell → Cell → Cell
  | Cell.num a, Cell.num b => Cell.num (a - b)
  | _, _ => Cell.na

/-- A difference-column assignment such as `df['GoalDiff'] = df['GF'] - df['GA']`. -/
def diffStep (df : DataFrame) (c1 c2 cd : Col) : Except String DataFrame := do
  let v1 ← colVals df c1
  let v2 ← colVals df c2
  return setCol df cd (List.zipWith cellSub v1 v2)

/-- The comparison `r['GF'] > r['GA']` on post-coercion cells: true only
for two present numbers; any comparison against NaN is false in pandas. -/
def cellGT : Cell → Cell → Bool
  | Cell.num a, Cell.num b => decide (b < a)
  | _, _ => false

/-- The comparison `r['GF'] == r['GA']`; NaN is equal to nothing. -/
def cellEQ : Cell → Cell → Bool
  | Cell.num a, Cell.num b => decide (a = b)
  | Cell.str a, Cell.str b => decide (a = b)
  | Cell.date a, Cell.date b => decide (a = b)
  | _, _ => false

/-- Strictly-less comparison, derived from `cellGT` by flipping. -/
def cellLT (a b : Cell) : Bool := cellGT b a

/-- The outcome lambda of line 95:
`'Win' if r['GF'] > r['GA'] else ('Draw' if r['GF']==r['GA'] else 'Loss')`. -/
def outcomeOf (gf ga : Cell) : Cell :=
  if cellGT gf ga then Cell.str "Win"
  else if cellEQ gf ga then Cell.str "Draw"
  else Cell.str "Loss"

/-- The assignment `df['Outcome'] = df.apply(lambda r: ..., axis=1)`. -/
def applyOutcome (df : DataFrame) : DataFrame :=
  setCol df Col.Outcome
    (df.rows.map (fun r => outcomeOf (getCell r Col.GF) (getCell r Col.GA)))

/-- One cell under `pd.to_datetime(_, errors='coerce')`: missing stays
missing, strings go through the date parser `pdate` (failure coerces to
NaT, modelled as `na`), already-parsed dates pass through. -/
def toDatetime (pdate : String → Option ℤ) : Cell → Cell
  | Cell.na => Cell.na
  | Cell.str s => match pdate s with | some d => Cell.date d | none => Cell.na
  | Cell.date d => Cell.date d
  | _ => Cell.na

/-- The assignment `df['Date'] = pd.to_datetime(df['Date'], errors='coerce')`. -/
def dateStep (pdate : String → Option ℤ) (df : DataFrame) : Except String DataFrame := do
  let vals ← colVals df Col.Date
  return setCol df Col.Date (vals.map (toDatetime pdate))

/-- The final `df.dropna(subset=['Date'])`. -/
def dropnaDate (df : DataFrame) : DataFrame :=
  { cols := df.cols,
    rows := df.rows.filter (fun r => decide (getCell r Col.Date ≠ Cell.na)) }

/-- The Cleaner, `clean_matchlog` (lines 87-97), parametric in the numeric
and date parsers abstracting `pd.to_numeric` / `pd.to_datetime` on
strings. -/
def clean_matchlog (pnum : String → Option ℚ) (pdate : String → Option ℤ)
    (df0 : DataFrame) : Except String DataFrame := do
  let df1 := projectDF df0
  let df2 ← numeric_cols.foldlM (numStep pnum) df1
  let df3 ← diffStep df2 Col.GF Col.GA Col.GoalDiff
  let df4 ← diffStep df3 Col.xG Col.xGA Col.xGDiff
  let df5 := applyOutcome df4
  let df6 ← dateStep pdate df5
  return dropnaDate df6

/-- Row-level effect of the coercion loop body on one column. -/
def coerceStepRow (pnum : String → Option ℚ) (r : Row) (c : Col) : Row :=
  setCell r c (toNumericCell pnum (getCell r c))

/-- Row-level effect of the whole numeric-coercion loop. -/
def coerceRow (pnum : String → Option ℚ) (r : Row) : Row :=
  numeric_cols.foldl (coerceStepRow pnum) r

/-- Row-level effect of a difference-column assignment. -/
def diffRow (c1 c2 cd : Col) (r : Row) : Row :=
  setCell r cd (cellSub (getCell r c1) (getCell r c2))

/-- Row-level effect of the Outcome assignment. -/
def outcomeRow (r : Row) : Row :=
  setCell r Col.Outcome (outcomeOf (getCell r Col.GF) (getCell r Col.GA))

/-- Row-level effect of the Date coercion. -/
def dateRow (pdate : String → Option ℤ) (r : Row) : Row :=
  setCell r Col.Date (toDatetime pdate (getCell r Col.Date))

/-- Row-level composition of all per-row stages of `clean_matchlog`. -/
def cleanRow (pnum : String → Option ℚ) (pdate : String → Option ℤ)
    (kp : List Col) (r : Row) : Row :=
  dateRow pdate (outcomeRow (diffRow Col.xG Col.xGA Col.xGDiff
    (diffRow Col.GF Col.GA Col.GoalDiff (coerceRow pnum (projectRow kp r)))))

/-- The columns whose absence makes `clean_matchlog` raise a KeyError:
the five numeric columns (read by the coercion loop) and Date (read by
the `pd.to_datetime` line). -/
def requiredPresent (df : DataFrame) : Prop :=
  Col.GF ∈ df.cols ∧ Col.GA ∈ df.cols ∧ Col.xG ∈ df.cols ∧ Col.xGA ∈ df.cols ∧
  Col.Poss ∈ df.cols ∧ Col.Date ∈ df.cols

instance (df : DataFrame) : Decidable (requiredPresent df) := by
  unfold requiredPresent; infer_instance

/-- Closed form of the successful run of `clean_matchlog`. -/
def cleanOut (pnum : String → Option ℚ) (pdate : String → Option ℤ)
    (df0 : DataFrame) : DataFrame :=
  { cols := keepCols df0 ++ [Col.GoalDiff, Col.xGDiff, Col.Outcome],
    rows := (df0.rows.map (cleanRow pnum pdate (keepCols df0))).filter
      (fun r => decide (getCell r Col.Date ≠ Cell.na)) }

/-- An HTTP response as seen by `safe_get`: status code plus body. -/
structure HttpResponse where
  status_code : Nat
  content : String
deriving DecidableEq, Repr

/-- One event of the scripted remote: either a response or a raised
network-level exception. -/
inductive NetEvent where
  | resp (r : HttpResponse)
  | exn (msg : String)
deriving DecidableEq, Repr

/-- The sleeps `safe_get` can perform: the 60s rate-limit cooldown, the
randomized politeness delay after a success, the 10s backoff after an
exception. -/
inductive Sleep where
  | cooldown60
  | polite
  | backoff10
deriving DecidableEq, Repr

/-- The Fetcher, `safe_get` (lines 18-36), run against a scripted trace of
remote events.  Returns the response (or `none` on failure), the sleeps
performed, the URLs requested (one entry per GET issued), and the
remaining trace.  An empty trace returns failure without any request;
theorems only use traces long enough for the call. -/
def safe_get (url : String) :
    List NetEvent → Option HttpResponse × List Sleep × List String × List NetEvent
  | [] => (none, [], [], [])
  | NetEvent.exn _ :: rest => (none, [Sleep.backoff10], [url], rest)
  | NetEvent.resp r :: rest =>
      if r.status_code = 429 then
        let t := safe_get url rest
        (t.1, Sleep.cooldown60 :: t.2.1, url :: t.2.2.1, t.2.2.2)
      else if r.status_code ≠ 200 then (none, [], [url], rest)
      else (some r, [Sleep.polite], [url], rest)

/-- A cache artifact on disk: a readable CSV holding a DataFrame, or a
file whose read raises (the `except` branch of lines 43-47). -/
inductive FileData where
  | csv (df : DataFrame)
  | corrupt
deriving DecidableEq, Repr

/-- The local filesystem: an association list from paths to files. -/
abbrev FileSys := List (String × FileData)

/-- The state `download_matchlogs` acts on: scripted remote trace plus
filesystem. -/
structure World where
  net : List NetEvent
  fs : FileSys
deriving DecidableEq, Repr

/-- File lookup (`os.path.exists` + `pd.read_csv` target selection). -/
def lookupFile : FileSys → String → Option FileData
  | [], _ => none
  | (q, d) :: fs0, p => if q = p then some d else lookupFile fs0 p

/-- File write (`to_csv`): overwrites the path if present, else appends. -/
def fsWrite : FileSys → String → FileData → FileSys
  | [], p, d => [(p, d)]
  | (q, e) :: fs0, p, d => if q = p then (p, d) :: fs0 else (q, e) :: fsWrite fs0 p d

/-- The normalization `team_name.lower().replace(' ', '-')` (both
operations are character-wise, so one pass suffices). -/
def normalizeName (s : String) : String :=
  String.mk (s.data.map (fun ch => if ch = ' ' then '-' else ch.toLower))

/-- The cache path `f"data/{team_name.lower().replace(' ', '-')}_matchlogs.csv"`. -/
def file_path (team_name : String) : String :=
  "data/" ++ normalizeName team_name ++ "_matchlogs.csv"

/-- The per-season URL template of line 53. -/
def season_url (team_id season team_name : String) : String :=
  "https://fbref.com/en/squads/" ++ team_id ++ "/" ++ season ++
    "/matchlogs/all_comps/schedule/" ++ team_name ++ "-Scores-and-Fixtures-All-Competitions"

/-- Abstraction of `pd.read_html(resp.content)` followed by the
MultiIndex flattening of lines 65-66: from a response body, the list of
embedded tables with already-flattened column labels, or a raised parse
exception. -/
abbrev ReadHtml := String → Except String (List DataFrame)

/-- One iteration of the season loop (lines 52-75): fetch the URL, parse
the tables, take the first, tag it with `Season` and `Team`.  Returns the
season chunk (or `none` when the season is skipped), the remaining trace,
the sleeps and the requested URLs. -/
def fetchSeason (read_html : ReadHtml) (team_name team_id season : String)
    (net : List NetEvent) :
    Option DataFrame × List NetEvent × List Sleep × List String :=
  let url := season_url team_id season team_name
  let t := safe_get url net
  match t.1 with
  | none => (none, t.2.2.2, t.2.1, t.2.2.1)
  | some resp =>
    match read_html resp.content with
    | Except.error _ => (none, t.2.2.2, t.2.1, t.2.2.1)
    | Except.ok [] => (none, t.2.2.2, t.2.1, t.2.2.1)
    | Except.ok (tbl :: _) =>
        (some (setColConst (setColConst tbl Col.Season (Cell.str season))
                 Col.Team (Cell.str team_name)),
         t.2.2.2, t.2.1, t.2.2.1)

/-- The whole season loop: the collected chunks `all_logs` in season
order, the remaining trace, the sleeps and the requested URLs. -/
def fetchSeasons (read_html : ReadHtml) (team_name team_id : String) :
    List String → List NetEvent →
    List DataFrame × List NetEvent × List Sleep × List String
  | [], net => ([], net, [], [])
  | season :: rest, net =>
    let a := fetchSeason read_html team_name team_id season net
    let b := fetchSeasons read_html team_name team_id rest a.2.1
    ((match a.1 with | some df => df :: b.1 | none => b.1),
     b.2.1, a.2.2.1 ++ b.2.2.1, a.2.2.2 ++ b.2.2.2)

/-- `pd.concat(_, ignore_index=True)`: rows are concatenated in order;
the column set is the ordered union, and a row reads `na` at any column
its source frame lacked. -/
def unionCols (acc cs : List Col) : List Col :=
  acc ++ cs.filter (fun c => decide (c ∉ acc))

/-- Concatenation of a list of DataFrames, as `pd.concat`. -/
def concatDFs (dfs : List DataFrame) : DataFrame :=
  { cols := (dfs.map DataFrame.cols).foldl unionCols [],
    rows := (dfs.map DataFrame.rows).flatten }

/-- `download_matchlogs` (lines 38-84): if the cache path exists, return
the read of that file (`none` when the read raises) without touching the
network; otherwise run the season loop, and if any chunk was collected,
concatenate, write the cache and return it, else return `none` leaving
the filesystem unchanged. -/
def download_matchlogs (read_html : ReadHtml) (team_name team_id : String)
    (seasons : List String) (w : World) :
    Option DataFrame × World × List Sleep × List String :=
  let path := file_path team_name
  match lookupFile w.fs path with
  | some (FileData.csv df) => (some df, w, [], [])
  | some FileData.corrupt => (none, w, [], [])
  | none =>
    let t := fetchSeasons read_html team_name team_id seasons w.net
    match t.1 with
    | [] => (none, { net := t.2.1, fs := w.fs }, t.2.2.1, t.2.2.2)
    | _ :: _ =>
      let combined := concatDFs t.1
      (some combined,
       { net := t.2.1, fs := fsWrite w.fs path (FileData.csv combined) },
       t.2.2.1, t.2.2.2)

/-- The Merger, `merge_teams` (lines 99-104): concatenate the cleaned
team datasets and persist the result at the fixed combined path. -/
def merge_teams (fs : FileSys) (dfs : List DataFrame) : DataFrame × FileSys :=
  let combined := concatDFs dfs
  (combined, fsWrite fs "data/all_teams_training_data.csv" (FileData.csv combined))

/-- Concrete numeric parser used by witnesses and counterexamples. -/
def pnumW (s : String) : Option ℚ :=
  if s = "0" then some 0 else if s = "1" then some 1 else if s = "2" then some 2 else
  if s = "3" then some 3 else none

/-- Concrete date parser used by witnesses and counterexamples. -/
def pdateW (s : String) : Option ℤ :=
  if s = "2024-01-05" then some 0 else if s = "2024-01-12" then some 7 else none

/-- Trivial table parser used by witnesses: every body parses to no table. -/
def rhEmpty : ReadHtml := fun _ => Except.ok []

/-- Concrete raw frame whose single row has an unparseable `GF` value but a
parseable date: exercises the Outcome rule on a missing number. -/
def dfC1 : DataFrame :=
  { cols := [Col.Date, Col.GF, Col.GA, Col.xG, Col.xGA, Col.Poss],
    rows := [[(Col.Date, Cell.str "2024-01-05"), (Col.GF, Cell.str "x"), (Col.GA, Cell.str "1"),
              (Col.xG, Cell.str "1"), (Col.xGA, Cell.str "1"), (Col.Poss, Cell.str "1")]] }

/-- The (unique) cleaned row of `dfC1`. -/
def c1row : Row := (cleanOut pnumW pdateW dfC1).rows.headD []

/-- Concrete raw frame with three rows: a win, a row with an unparseable
date, and a row with an unparseable `GF`. -/
def dfW5 : DataFrame :=
  { cols := [Col.Date, Col.GF, Col.GA, Col.xG, Col.xGA, Col.Poss, Col.Team],
    rows := [[(Col.Date, Cell.str "2024-01-05"), (Col.GF, Cell.str "2"), (Col.GA, Cell.str "1"),
              (Col.xG, Cell.str "1"), (Col.xGA, Cell.str "3"), (Col.Poss, Cell.str "1"),
              (Col.Team, Cell.str "t")],
             [(Col.Date, Cell.str "bad"), (Col.GF, Cell.str "2"), (Col.GA, Cell.str "2"),
              (Col.xG, Cell.str "1"), (Col.xGA, Cell.str "1"), (Col.Poss, Cell.str "1"),
              (Col.Team, Cell.str "t")],
             [(Col.Date, Cell.str "2024-01-12"), (Col.GF, Cell.str "x"), (Col.GA, Cell.str "1"),
              (Col.xG, Cell.str "1"), (Col.xGA, Cell.str "1"), (Col.Poss, Cell.str "1"),
              (Col.Team, Cell.str "t")]] }

/-- First cleaned row of `dfW5` (the win). -/
def rW5a : Row := (cleanOut pnumW pdateW dfW5).rows.headD []

/-- Second cleaned row of `dfW5` (the missing-GF row). -/
def rW5b : Row := (cleanOut pnumW pdateW dfW5).rows.getD 1 []

/-- Concrete raw frame missing the `Poss` column. -/
def dfC3 : DataFrame :=
  { cols := [Col.Date, Col.GF, Col.GA, Col.xG, Col.xGA], rows := [] }

/-- Concrete raw frame with all required columns but several optional text
columns absent. -/
def dfC3b : DataFrame :=
  { cols := [Col.Date, Col.GF, Col.GA, Col.xG, Col.xGA, Col.Poss, Col.Opponent], rows := [] }

/-- Concrete cached dataset for the cache-bypass witness. -/
def dfCached : DataFrame :=
  { cols := [Col.Date, Col.Team], rows := [[(Col.Date, Cell.date 3), (Col.Team, Cell.str "t")]] }

/-- World holding a valid cache artifact for team "t". -/
def wCached : World :=
  { net := [], fs := [("data/t_matchlogs.csv", FileData.csv dfCached)] }

/-- Concrete rate-limited response. -/
def resp429 : HttpResponse := { status_code := 429, content := "a" }

/-- Concrete success response. -/
def resp200 : HttpResponse := { status_code := 200, content := "b" }

/-- Concrete server-error response. -/
def resp500 : HttpResponse := { status_code := 500, content := "c" }

/-- World whose only scripted remote event is a server error and whose
filesystem is empty. -/
def wFail : World := { net := [NetEvent.resp resp500], fs := [] }

/-- Concrete remote table for the pipeline witness. -/
def tblC7 : DataFrame :=
  { cols := [Col.Date, Col.GF, Col.GA, Col.xG, Col.xGA, Col.Poss],
    rows := [[(Col.Date, Cell.str "2024-01-05"), (Col.GF, Cell.str "2"), (Col.GA, Cell.str "1"),
              (Col.xG, Cell.str "1"), (Col.xGA, Cell.str "1"), (Col.Poss, Cell.str "1")]] }

/-- Table parser returning `tblC7` for every body. -/
def rhC7 : ReadHtml := fun _ => Except.ok [tblC7]

/-- World with one scripted success response and an empty filesystem. -/
def wC7 : World := { net := [NetEvent.resp resp200], fs := [] }

/-- A concrete fresh download of team "t". -/
def dlC7 : Option DataFrame × World × List Sleep × List String :=
  download_matchlogs rhC7 "t" "id" ["2024-2025"] wC7

/-- The downloaded frame of `dlC7`. -/
def dfC7 : DataFrame := dlC7.1.getD { cols := [], rows := [] }

/-- The cleaning of `dfC7`. -/
def cleanC7 : DataFrame :=
  (clean_matchlog pnumW pdateW dfC7).toOption.getD { cols := [], rows := [] }

/-- The (unique) merged row of the one-team pipeline run. -/
def rowC7 : Row := (merge_teams [] [cleanC7]).1.rows.headD []

theorem getCell_setCell (r : Row) (c c0 : Col) (v : Cell) :
    getCell (setCell r c v) c0 = if c = c0 then v else getCell r c0 := by
  induction r with
  | nil => simp [setCell, getCell]
  | cons p r ih =>
    obtain ⟨a, b⟩ := p
    by_cases hac : a = c
    · subst hac
      simp only [setCell, if_pos rfl, getCell]
      by_cases hc0 : a = c0
      · simp [hc0]
      · simp [hc0, getCell]
    · simp only [setCell, if_neg hac, getCell]
      by_cases hc0 : a = c0
      · subst hc0
        have : ¬ c = a := fun h => hac h.symm
        simp [this]
      · simp [hc0, ih]

theorem getCell_projectRow (kp : List Col) (r : Row) (c : Col) :
    getCell (projectRow kp r) c = if c ∈ kp then getCell r c else Cell.na := by
  induction kp with
  | nil => simp [projectRow, getCell]
  | cons a kp ih =>
    simp only [projectRow, List.map_cons, getCell] at *
    by_cases hac : a = c
    · subst hac; simp
    · have : ¬ c = a := fun h => hac h.symm
      simp [hac, this, ih]

theorem zip_map_same (c : Col) (g : Row → Cell) (l : List Row) :
    (l.zip (l.map g)).map (fun p => setCell p.1 c p.2)
      = l.map (fun r => setCell r c (g r)) := by
  induction l with
  | nil => rfl
  | cons a l ih => simp [ih]

theorem zipWith_map_same (f : Cell → Cell → Cell) (g h : Row → Cell) (l : List Row) :
    List.zipWith f (l.map g) (l.map h) = l.map (fun r => f (g r) (h r)) := by
  induction l with
  | nil => rfl
  | cons a l ih => simp [ih]

theorem mem_keepCols (df : DataFrame) (c : Col) :
    c ∈ keepCols df ↔ c ∈ useful_cols ∧ c ∈ df.cols := by
  simp [keepCols, List.mem_filter]

theorem ok_bind {α β : Type} (x : α) (f : α → Except String β) :
    (Except.ok x >>= f) = f x := rfl

theorem err_bind {α β : Type} (e : String) (f : α → Except String β) :
    ((Except.error e : Except String α) >>= f) = Except.error e := rfl

theorem pure_eq_ok {α : Type} (x : α) : (pure x : Except String α) = Except.ok x := rfl

theorem numStep_ok (pnum : String → Option ℚ) (df : DataFrame) (c : Col) (h : c ∈ df.cols) :
    numStep pnum df c = Except.ok
      { cols := df.cols,
        rows := df.rows.map (fun r => setCell r c (toNumericCell pnum (getCell r c))) } := by
  simp only [numStep, colVals, if_pos h, ok_bind, List.map_map, pure_eq_ok, setCol,
    zip_map_same, Function.comp]

theorem numStep_err (pnum : String → Option ℚ) (df : DataFrame) (c : Col) (h : c ∉ df.cols) :
    numStep pnum df c = Except.error "KeyError" := by
  simp [numStep, colVals, if_neg h, err_bind]

theorem diffStep_ok (df : DataFrame) (c1 c2 cd : Col)
    (h1 : c1 ∈ df.cols) (h2 : c2 ∈ df.cols) (hd : cd ∉ df.cols) :
    diffStep df c1 c2 cd = Except.ok
      { cols := df.cols ++ [cd],
        rows := df.rows.map (fun r => setCell r cd (cellSub (getCell r c1) (getCell r c2))) } := by
  simp only [diffStep, colVals, if_pos h1, if_pos h2, ok_bind, zipWith_map_same, pure_eq_ok,
    setCol, if_neg hd, zip_map_same]

theorem applyOutcome_eq (df : DataFrame) (h : Col.Outcome ∉ df.cols) :
    applyOutcome df =
      { cols := df.cols ++ [Col.Outcome],
        rows := df.rows.map (fun r =>
          setCell r Col.Outcome (outcomeOf (getCell r Col.GF) (getCell r Col.GA))) } := by
  simp only [applyOutcome, setCol, if_neg h, zip_map_same]

theorem dateStep_ok (pdate : String → Option ℤ) (df : DataFrame) (h : Col.Date ∈ df.cols) :
    dateStep pdate df = Except.ok
      { cols := df.cols,
        rows := df.rows.map (fun r =>
          setCell r Col.Date (toDatetime pdate (getCell r Col.Date))) } := by
  simp only [dateStep, colVals, if_pos h, ok_bind, List.map_map, pure_eq_ok, setCol,
    zip_map_same, Function.comp]

theorem dateStep_err (pdate : String → Option ℤ) (df : DataFrame) (h : Col.Date ∉ df.cols) :
    dateStep pdate df = Except.error "KeyError" := by
  simp [dateStep, colVals, if_neg h, err_bind]

theorem numStep_mk (pnum : String → Option ℚ) (cs : List Col) (rs : List Row)
    (c : Col) (h : c ∈ cs) :
    numStep pnum (DataFrame.mk cs rs) c = Except.ok
      (DataFrame.mk cs (rs.map (fun r => setCell r c (toNumericCell pnum (getCell r c))))) :=
  numStep_ok pnum (DataFrame.mk cs rs) c h

theorem diffStep_mk (cs : List Col) (rs : List Row) (c1 c2 cd : Col)
    (h1 : c1 ∈ cs) (h2 : c2 ∈ cs) (hd : cd ∉ cs) :
    diffStep (DataFrame.mk cs rs) c1 c2 cd = Except.ok
      (DataFrame.mk (cs ++ [cd])
        (rs.map (fun r => setCell r cd (cellSub (getCell r c1) (getCell r c2))))) :=
  diffStep_ok (DataFrame.mk cs rs) c1 c2 cd h1 h2 hd

theorem applyOutcome_mk (cs : List Col) (rs : List Row) (h : Col.Outcome ∉ cs) :
    applyOutcome (DataFrame.mk cs rs) =
      DataFrame.mk (cs ++ [Col.Outcome])
        (rs.map (fun r =>
          setCell r Col.Outcome (outcomeOf (getCell r Col.GF) (getCell r Col.GA)))) :=
  applyOutcome_eq (DataFrame.mk cs rs) h

theorem dateStep_mk (pdate : String → Option ℤ) (cs : List Col) (rs : List Row)
    (h : Col.Date ∈ cs) :
    dateStep pdate (DataFrame.mk cs rs) = Except.ok
      (DataFrame.mk cs
        (rs.map (fun r => setCell r Col.Date (toDatetime pdate (getCell r Col.Date))))) :=
  dateStep_ok pdate (DataFrame.mk cs rs) h

theorem numFold_ok (pnum : String → Option ℚ) (df : DataFrame)
    (hGF : Col.GF ∈ df.cols) (hGA : Col.GA ∈ df.cols) (hxG : Col.xG ∈ df.cols)
    (hxGA : Col.xGA ∈ df.cols) (hPoss : Col.Poss ∈ df.cols) :
    numeric_cols.foldlM (numStep pnum) df = Except.ok
      { cols := df.cols, rows := df.rows.map (coerceRow pnum) } := by
  simp only [numeric_cols, List.foldlM]
  rw [numStep_ok pnum df Col.GF hGF, ok_bind]
  rw [numStep_mk pnum df.cols _ Col.GA hGA, ok_bind]
  simp only [List.map_map]
  rw [numStep_mk pnum df.cols _ Col.xG hxG, ok_bind]
  simp only [List.map_map]
  rw [numStep_mk pnum df.cols _ Col.xGA hxGA, ok_bind]
  simp only [List.map_map]
  rw [numStep_mk pnum df.cols _ Col.Poss hPoss]
  simp only [List.map_map]
  rfl

theorem numFold_mk (pnum : String → Option ℚ) (cs : List Col) (rs : List Row)
    (hGF : Col.GF ∈ cs) (hGA : Col.GA ∈ cs) (hxG : Col.xG ∈ cs)
    (hxGA : Col.xGA ∈ cs) (hPoss : Col.Poss ∈ cs) :
    numeric_cols.foldlM (numStep pnum) (DataFrame.mk cs rs) = Except.ok
      (DataFrame.mk cs (rs.map (coerceRow pnum))) :=
  numFold_ok pnum (DataFrame.mk cs rs) hGF hGA hxG hxGA hPoss

theorem clean_ok_of_required (pnum : String → Option ℚ) (pdate : String → Option ℤ)
    (df0 : DataFrame) (h : requiredPresent df0) :
    clean_matchlog pnum pdate df0 = Except.ok (cleanOut pnum pdate df0) := by
  obtain ⟨hGF, hGA, hxG, hxGA, hPoss, hDate⟩ := h
  have kGF : Col.GF ∈ keepCols df0 := (mem_keepCols df0 _).mpr ⟨by decide, hGF⟩
  have kGA : Col.GA ∈ keepCols df0 := (mem_keepCols df0 _).mpr ⟨by decide, hGA⟩
  have kxG : Col.xG ∈ keepCols df0 := (mem_keepCols df0 _).mpr ⟨by decide, hxG⟩
  have kxGA : Col.xGA ∈ keepCols df0 := (mem_keepCols df0 _).mpr ⟨by decide, hxGA⟩
  have kPoss : Col.Poss ∈ keepCols df0 := (mem_keepCols df0 _).mpr ⟨by decide, hPoss⟩
  have kDate : Col.Date ∈ keepCols df0 := (mem_keepCols df0 _).mpr ⟨by decide, hDate⟩
  have nGD : Col.GoalDiff ∉ keepCols df0 := fun hc =>
    absurd ((mem_keepCols df0 _).mp hc).1 (by decide)
  have nxGD : Col.xGDiff ∉ keepCols df0 ++ [Col.GoalDiff] := by
    intro hc
    rcases List.mem_append.mp hc with hc | hc
    · exact absurd ((mem_keepCols df0 _).mp hc).1 (by decide)
    · simp at hc
  have nOut : Col.Outcome ∉ (keepCols df0 ++ [Col.GoalDiff]) ++ [Col.xGDiff] := by
    intro hc
    rcases List.mem_append.mp hc with hc | hc
    · rcases List.mem_append.mp hc with hc | hc
      · exact absurd ((mem_keepCols df0 _).mp hc).1 (by decide)
      · simp at hc
    · simp at hc
  have kxG2 : Col.xG ∈ keepCols df0 ++ [Col.GoalDiff] := List.mem_append_left _ kxG
  have kxGA2 : Col.xGA ∈ keepCols df0 ++ [Col.GoalDiff] := List.mem_append_left _ kxGA
  have kDate3 :
      Col.Date ∈ ((keepCols df0 ++ [Col.GoalDiff]) ++ [Col.xGDiff]) ++ [Col.Outcome] :=
    List.mem_append_left _ (List.mem_append_left _ (List.mem_append_left _ kDate))
  simp only [clean_matchlog]
  rw [show projectDF df0
        = DataFrame.mk (keepCols df0) (df0.rows.map (projectRow (keepCols df0))) from rfl]
  rw [numFold_mk pnum (keepCols df0) _ kGF kGA kxG kxGA kPoss, ok_bind]
  rw [diffStep_mk (keepCols df0) _ Col.GF Col.GA Col.GoalDiff kGF kGA nGD, ok_bind]
  simp only [List.map_map]
  rw [diffStep_mk (keepCols df0 ++ [Col.GoalDiff]) _ Col.xG Col.xGA Col.xGDiff
        kxG2 kxGA2 nxGD, ok_bind]
  simp only [List.map_map]
  rw [applyOutcome_mk ((keepCols df0 ++ [Col.GoalDiff]) ++ [Col.xGDiff]) _ nOut]
  simp only [List.map_map]
  rw [dateStep_mk pdate (((keepCols df0 ++ [Col.GoalDiff]) ++ [Col.xGDiff]) ++ [Col.Outcome])
        _ kDate3, ok_bind]
  simp only [List.map_map, pure_eq_ok, dropnaDate, cleanOut, List.append_assoc,
    List.singleton_append, List.cons_append, List.nil_append]
  rfl

theorem bind_ok_inv {α β : Type} {x : Except String α} {f : α → Except String β} {b : β}
    (h : (x >>= f) = Except.ok b) : ∃ a, x = Except.ok a ∧ f a = Except.ok b := by
  cases x with
  | ok a => exact ⟨a, rfl, h⟩
  | error e => rw [err_bind] at h; cases h

theorem numStep_ok_inv {pnum : String → Option ℚ} {df df' : DataFrame} {c : Col}
    (h : numStep pnum df c = Except.ok df') :
    c ∈ df.cols ∧
      df' = DataFrame.mk df.cols
        (df.rows.map (fun r => setCell r c (toNumericCell pnum (getCell r c)))) := by
  by_cases hc : c ∈ df.cols
  · rw [numStep_ok pnum df c hc] at h
    exact ⟨hc, (Except.ok.injEq _ _).mp h.symm ▸ rfl⟩
  · rw [numStep_err pnum df c hc] at h; cases h

theorem diffStep_ok_inv {df df' : DataFrame} {c1 c2 cd : Col}
    (h : diffStep df c1 c2 cd = Except.ok df') : c1 ∈ df.cols ∧ c2 ∈ df.cols := by
  by_cases h1 : c1 ∈ df.cols
  · by_cases h2 : c2 ∈ df.cols
    · exact ⟨h1, h2⟩
    · simp [diffStep, colVals, if_pos h1, if_neg h2, ok_bind, err_bind] at h
  · simp [diffStep, colVals, if_neg h1, err_bind] at h

theorem dateStep_ok_inv {pdate : String → Option ℤ} {df df' : DataFrame}
    (h : dateStep pdate df = Except.ok df') : Col.Date ∈ df.cols := by
  by_cases hc : Col.Date ∈ df.cols
  · exact hc
  · rw [dateStep_err pdate df hc] at h; cases h

theorem mem_setCol_inv {df : DataFrame} {c c0 : Col} {vs : List Cell}
    (h : c0 ∈ (setCol df c vs).cols) : c0 = c ∨ c0 ∈ df.cols := by
  by_cases hc : c ∈ df.cols
  · right; simpa [setCol, if_pos hc] using h
  · simp only [setCol, if_neg hc] at h
    rcases List.mem_append.mp h with h | h
    · exact Or.inr h
    · left; simpa using h

theorem diffStep_ok_shape {df df' : DataFrame} {c1 c2 cd : Col}
    (h : diffStep df c1 c2 cd = Except.ok df') : ∃ vs, df' = setCol df cd vs := by
  by_cases h1 : c1 ∈ df.cols
  · by_cases h2 : c2 ∈ df.cols
    · refine ⟨List.zipWith cellSub (df.rows.map (fun r => getCell r c1))
        (df.rows.map (fun r => getCell r c2)), ?_⟩
      simp only [diffStep, colVals, if_pos h1, if_pos h2, ok_bind, pure_eq_ok] at h
      exact ((Except.ok.injEq _ _).mp h).symm
    · simp [diffStep, colVals, if_pos h1, if_neg h2, ok_bind, err_bind] at h
  · simp [diffStep, colVals, if_neg h1, err_bind] at h

theorem clean_ok_inv {pnum : String → Option ℚ} {pdate : String → Option ℤ}
    {df0 df' : DataFrame} (h : clean_matchlog pnum pdate df0 = Except.ok df') :
    requiredPresent df0 ∧ df' = cleanOut pnum pdate df0 := by
  have hreq : requiredPresent df0 := by
    have h' := h
    simp only [clean_matchlog, numeric_cols, List.foldlM] at h'
    obtain ⟨df2, hfold, hrest⟩ := bind_ok_inv h'
    obtain ⟨b1, hs1, hfold⟩ := bind_ok_inv hfold
    obtain ⟨hGFm, hb1⟩ := numStep_ok_inv hs1
    subst hb1
    obtain ⟨b2, hs2, hfold⟩ := bind_ok_inv hfold
    obtain ⟨hGAm, hb2⟩ := numStep_ok_inv hs2
    subst hb2
    obtain ⟨b3, hs3, hfold⟩ := bind_ok_inv hfold
    obtain ⟨hxGm, hb3⟩ := numStep_ok_inv hs3
    subst hb3
    obtain ⟨b4, hs4, hfold⟩ := bind_ok_inv hfold
    obtain ⟨hxGAm, hb4⟩ := numStep_ok_inv hs4
    subst hb4
    obtain ⟨b5, hs5, hfold⟩ := bind_ok_inv hfold
    obtain ⟨hPossm, hb5⟩ := numStep_ok_inv hs5
    subst hb5
    rw [pure_eq_ok] at hfold
    have hdf2 := (Except.ok.injEq _ _).mp hfold
    subst hdf2
    obtain ⟨df3, hd1, hrest⟩ := bind_ok_inv hrest
    obtain ⟨df4, hd2, hrest⟩ := bind_ok_inv hrest
    obtain ⟨df6, hd3, _⟩ := bind_ok_inv hrest
    have hDout : Col.Date ∈ (applyOutcome df4).cols := dateStep_ok_inv hd3
    have hD4 : Col.Date ∈ df4.cols := by
      rcases @mem_setCol_inv df4 Col.Outcome Col.Date
          (df4.rows.map (fun r => outcomeOf (getCell r Col.GF) (getCell r Col.GA))) hDout
        with hh | hh
      · exact absurd hh (by decide)
      · exact hh
    obtain ⟨vs2, hdf4⟩ := diffStep_ok_shape hd2
    subst hdf4
    have hD3 : Col.Date ∈ df3.cols := by
      rcases mem_setCol_inv hD4 with hh | hh
      · exact absurd hh (by decide)
      · exact hh
    obtain ⟨vs1, hdf3⟩ := diffStep_ok_shape hd1
    subst hdf3
    have hD2 : Col.Date ∈ keepCols df0 := by
      rcases mem_setCol_inv hD3 with hh | hh
      · exact absurd hh (by decide)
      · exact hh
    refine ⟨((mem_keepCols df0 _).mp hGFm).2, ((mem_keepCols df0 _).mp hGAm).2,
      ((mem_keepCols df0 _).mp hxGm).2, ((mem_keepCols df0 _).mp hxGAm).2,
      ((mem_keepCols df0 _).mp hPossm).2, ((mem_keepCols df0 _).mp hD2).2⟩
  refine ⟨hreq, ?_⟩
  have h2 := clean_ok_of_required pnum pdate df0 hreq
  rw [h2] at h
  exact ((Except.ok.injEq _ _).mp h).symm

theorem getCell_cleanRow_GF (pnum : String → Option ℚ) (pdate : String → Option ℤ)
    (kp : List Col) (r : Row) :
    getCell (cleanRow pnum pdate kp r) Col.GF
      = toNumericCell pnum (getCell (projectRow kp r) Col.GF) := by
  simp [cleanRow, dateRow, outcomeRow, diffRow, coerceRow, numeric_cols, List.foldl,
    coerceStepRow, getCell_setCell]

theorem getCell_cleanRow_GA (pnum : String → Option ℚ) (pdate : String → Option ℤ)
    (kp : List Col) (r : Row) :
    getCell (cleanRow pnum pdate kp r) Col.GA
      = toNumericCell pnum (getCell (projectRow kp r) Col.GA) := by
  simp [cleanRow, dateRow, outcomeRow, diffRow, coerceRow, numeric_cols, List.foldl,
    coerceStepRow, getCell_setCell]

theorem getCell_cleanRow_xG (pnum : String → Option ℚ) (pdate : String → Option ℤ)
    (kp : List Col) (r : Row) :
    getCell (cleanRow pnum pdate kp r) Col.xG
      = toNumericCell pnum (getCell (projectRow kp r) Col.xG) := by
  simp [cleanRow, dateRow, outcomeRow, diffRow, coerceRow, numeric_cols, List.foldl,
    coerceStepRow, getCell_setCell]

theorem getCell_cleanRow_xGA (pnum : String → Option ℚ) (pdate : String → Option ℤ)
    (kp : List Col) (r : Row) :
    getCell (cleanRow pnum pdate kp r) Col.xGA
      = toNumericCell pnum (getCell (projectRow kp r) Col.xGA) := by
  simp [cleanRow, dateRow, outcomeRow, diffRow, coerceRow, numeric_cols, List.foldl,
    coerceStepRow, getCell_setCell]

theorem getCell_cleanRow_GoalDiff (pnum : String → Option ℚ) (pdate : String → Option ℤ)
    (kp : List Col) (r : Row) :
    getCell (cleanRow pnum pdate kp r) Col.GoalDiff
      = cellSub (toNumericCell pnum (getCell (projectRow kp r) Col.GF))
          (toNumericCell pnum (getCell (projectRow kp r) Col.GA)) := by
  simp [cleanRow, dateRow, outcomeRow, diffRow, coerceRow, numeric_cols, List.foldl,
    coerceStepRow, getCell_setCell]

theorem getCell_cleanRow_xGDiff (pnum : String → Option ℚ) (pdate : String → Option ℤ)
    (kp : List Col) (r : Row) :
    getCell (cleanRow pnum pdate kp r) Col.xGDiff
      = cellSub (toNumericCell pnum (getCell (projectRow kp r) Col.xG))
          (toNumericCell pnum (getCell (projectRow kp r) Col.xGA)) := by
  simp [cleanRow, dateRow, outcomeRow, diffRow, coerceRow, numeric_cols, List.foldl,
    coerceStepRow, getCell_setCell]

theorem getCell_cleanRow_Outcome (pnum : String → Option ℚ) (pdate : String → Option ℤ)
    (kp : List Col) (r : Row) :
    getCell (cleanRow pnum pdate kp r) Col.Outcome
      = outcomeOf (toNumericCell pnum (getCell (projectRow kp r) Col.GF))
          (toNumericCell pnum (getCell (projectRow kp r) Col.GA)) := by
  simp [cleanRow, dateRow, outcomeRow, diffRow, coerceRow, numeric_cols, List.foldl,
    coerceStepRow, getCell_setCell]

theorem getCell_cleanRow_Date (pnum : String → Option ℚ) (pdate : String → Option ℤ)
    (kp : List Col) (r : Row) :
    getCell (cleanRow pnum pdate kp r) Col.Date
      = toDatetime pdate (getCell (projectRow kp r) Col.Date) := by
  simp [cleanRow, dateRow, outcomeRow, diffRow, coerceRow, numeric_cols, List.foldl,
    coerceStepRow, getCell_setCell]

theorem getCell_cleanRow_Team (pnum : String → Option ℚ) (pdate : String → Option ℤ)
    (kp : List Col) (r : Row) :
    getCell (cleanRow pnum pdate kp r) Col.Team = getCell (projectRow kp r) Col.Team := by
  simp [cleanRow, dateRow, outcomeRow, diffRow, coerceRow, numeric_cols, List.foldl,
    coerceStepRow, getCell_setCell]

theorem getCell_cleanRow_Season (pnum : String → Option ℚ) (pdate : String → Option ℤ)
    (kp : List Col) (r : Row) :
    getCell (cleanRow pnum pdate kp r) Col.Season = getCell (projectRow kp r) Col.Season := by
  simp [cleanRow, dateRow, outcomeRow, diffRow, coerceRow, numeric_cols, List.foldl,
    coerceStepRow, getCell_setCell]

theorem cellGT_na_left (b : Cell) : cellGT Cell.na b = false := by cases b <;> rfl

theorem cellGT_na_right (a : Cell) : cellGT a Cell.na = false := by cases a <;> rfl

theorem cellEQ_na_left (b : Cell) : cellEQ Cell.na b = false := by cases b <;> rfl

theorem cellEQ_na_right (a : Cell) : cellEQ a Cell.na = false := by cases a <;> rfl

theorem mem_cleanOut_rows {pnum : String → Option ℚ} {pdate : String → Option ℤ}
    {df0 : DataFrame} {r : Row} :
    r ∈ (cleanOut pnum pdate df0).rows ↔
      (∃ r0 ∈ df0.rows, cleanRow pnum pdate (keepCols df0) r0 = r) ∧
      getCell r Col.Date ≠ Cell.na := by
  simp [cleanOut, List.mem_filter, List.mem_map]

/-- C1 counterexample: on the concrete raw input `dfC1`, whose one row has
an unparseable `goals_for` and `goals_against = 1`, the cleaned row has
`outcome = Loss` even though `goals_for < goals_against` does not hold
(the comparison against a missing value is false), refuting the claimed
equivalence for rows with a missing goal count. -/
theorem C1_counterexample :
    ¬ (∀ df', clean_matchlog pnumW pdateW dfC1 = Except.ok df' →
        ∀ r ∈ df'.rows,
          (getCell r Col.Outcome = Cell.str "Loss" ↔
            cellLT (getCell r Col.GF) (getCell r Col.GA) = true)) := by
  intro hall
  have hrows : (cleanOut pnumW pdateW dfC1).rows = [c1row] := rfl
  have h1 := hall (cleanOut pnumW pdateW dfC1)
    (clean_ok_of_required pnumW pdateW dfC1 (by decide)) c1row
    (by rw [hrows]; exact List.mem_singleton_self _)
  have h2 : getCell c1row Col.Outcome = Cell.str "Loss" := by decide
  exact absurd (h1.mp h2) (by decide)

/-- C1 (amended): for every MatchRecord produced by the Cleaner whose
goals_for and goals_against are both present, outcome = Win iff
goals_for > goals_against, Draw iff equal, Loss iff less; for a record in
which goals_for or goals_against is missing after numeric coercion, the
outcome is always Loss. -/
theorem C1_outcome_rule (pnum : String → Option ℚ) (pdate : String → Option ℤ)
    (df0 df' : DataFrame) (h : clean_matchlog pnum pdate df0 = Except.ok df') :
    ∀ r ∈ df'.rows,
      (∀ a b : ℚ, getCell r Col.GF = Cell.num a → getCell r Col.GA = Cell.num b →
        ((getCell r Col.Outcome = Cell.str "Win" ↔ b < a) ∧
         (getCell r Col.Outcome = Cell.str "Draw" ↔ a = b) ∧
         (getCell r Col.Outcome = Cell.str "Loss" ↔ a < b))) ∧
      ((getCell r Col.GF = Cell.na ∨ getCell r Col.GA = Cell.na) →
        getCell r Col.Outcome = Cell.str "Loss") := by
  obtain ⟨hreq, hdf⟩ := clean_ok_inv h
  subst hdf
  intro r hr
  rw [mem_cleanOut_rows] at hr
  obtain ⟨⟨r0, hr0, hrw⟩, hdate⟩ := hr
  subst hrw
  rw [getCell_cleanRow_Outcome, getCell_cleanRow_GF, getCell_cleanRow_GA]
  constructor
  · intro a b ha hb
    rw [ha, hb]
    rcases lt_trichotomy a b with hlt | heq | hgt
    · have h1 : ¬ b < a := lt_asymm hlt
      have h2 : a ≠ b := ne_of_lt hlt
      simp [outcomeOf, cellGT, cellEQ, h1, h2, hlt]
    · subst heq
      simp [outcomeOf, cellGT, cellEQ, lt_irrefl]
    · have h2 : a ≠ b := ne_of_gt hgt
      have h3 : ¬ a < b := lt_asymm hgt
      simp [outcomeOf, cellGT, cellEQ, hgt, h2, h3]
  · intro hna
    rcases hna with hna | hna <;> rw [hna]
    · simp [outcomeOf, cellGT_na_left, cellEQ_na_left]
    · simp [outcomeOf, cellGT_na_right, cellEQ_na_right]

/-- C1 witness: the amended rule evaluated on the concrete frame `dfW5`:
its first cleaned row (2 goals to 1) is a Win, and its missing-GF row is
a Loss. -/
theorem C1_outcome_rule_witness :
    clean_matchlog pnumW pdateW dfW5 = Except.ok (cleanOut pnumW pdateW dfW5) ∧
    getCell rW5a Col.Outcome = Cell.str "Win" ∧
    getCell rW5b Col.Outcome = Cell.str "Loss" := by
  have hrows : (cleanOut pnumW pdateW dfW5).rows = [rW5a, rW5b] := rfl
  refine ⟨rfl, ?_, ?_⟩
  · exact ((C1_outcome_rule pnumW pdateW dfW5 (cleanOut pnumW pdateW dfW5) rfl rW5a
      (by rw [hrows]; exact List.mem_cons_self _ _)).1 2 1 (by decide) (by decide)).1.mpr
      (by norm_num)
  · exact (C1_outcome_rule pnumW pdateW dfW5 (cleanOut pnumW pdateW dfW5) rfl rW5b
      (by rw [hrows]; exact List.mem_cons_of_mem _ (List.mem_singleton_self _))).2
      (Or.inl (by decide))

/-- C8: for every MatchRecord produced by the Cleaner, GoalDiff is exactly
the pandas difference of the coerced GF and GA cells of the same record
(a present number when both are present, missing when either is missing),
and likewise xGDiff for xG and xGA. -/
theorem C8_derived_diffs (pnum : String → Option ℚ) (pdate : String → Option ℤ)
    (df0 df' : DataFrame) (h : clean_matchlog pnum pdate df0 = Except.ok df') :
    ∀ r ∈ df'.rows,
      getCell r Col.GoalDiff = cellSub (getCell r Col.GF) (getCell r Col.GA) ∧
      getCell r Col.xGDiff = cellSub (getCell r Col.xG) (getCell r Col.xGA) ∧
      (∀ a b : ℚ, getCell r Col.GF = Cell.num a → getCell r Col.GA = Cell.num b →
        getCell r Col.GoalDiff = Cell.num (a - b)) ∧
      (∀ a b : ℚ, getCell r Col.xG = Cell.num a → getCell r Col.xGA = Cell.num b →
        getCell r Col.xGDiff = Cell.num (a - b)) := by
  obtain ⟨hreq, hdf⟩ := clean_ok_inv h
  subst hdf
  intro r hr
  rw [mem_cleanOut_rows] at hr
  obtain ⟨⟨r0, hr0, hrw⟩, hdate⟩ := hr
  subst hrw
  rw [getCell_cleanRow_GoalDiff, getCell_cleanRow_xGDiff, getCell_cleanRow_GF,
    getCell_cleanRow_GA, getCell_cleanRow_xG, getCell_cleanRow_xGA]
  refine ⟨rfl, rfl, ?_, ?_⟩
  · intro a b ha hb; rw [ha, hb]; rfl
  · intro a b ha hb; rw [ha, hb]; rfl

/-- C8 witness: on the concrete frame `dfW5`, the first cleaned row (2
goals for, 1 against, xG 1 vs 3) has GoalDiff 1 and xGDiff -2. -/
theorem C8_witness :
    clean_matchlog pnumW pdateW dfW5 = Except.ok (cleanOut pnumW pdateW dfW5) ∧
    getCell rW5a Col.GoalDiff = Cell.num 1 ∧ getCell rW5a Col.xGDiff = Cell.num (-2) := by
  have hrows : (cleanOut pnumW pdateW dfW5).rows = [rW5a, rW5b] := rfl
  refine ⟨rfl, ?_, ?_⟩
  · have h1 := (C8_derived_diffs pnumW pdateW dfW5 (cleanOut pnumW pdateW dfW5) rfl rW5a
      (by rw [hrows]; exact List.mem_cons_self _ _)).2.2.1 2 1 (by decide) (by decide)
    have h2 : (2 - 1 : ℚ) = 1 := by norm_num
    rw [h1, h2]
  · have h1 := (C8_derived_diffs pnumW pdateW dfW5 (cleanOut pnumW pdateW dfW5) rfl rW5a
      (by rw [hrows]; exact List.mem_cons_self _ _)).2.2.2 1 3 (by decide) (by decide)
    have h2 : (1 - 3 : ℚ) = -2 := by norm_num
    rw [h1, h2]

theorem filter_length_add_countP (p : Row → Bool) (l : List Row) :
    (l.filter p).length + l.countP (fun a => ! p a) = l.length := by
  induction l with
  | nil => rfl
  | cons a l ih =>
    by_cases hp : p a
    · simp only [List.filter_cons, List.countP_cons, hp, if_pos, Bool.not_true,
        List.length_cons, if_neg, Bool.false_eq_true, not_false_iff]
      omega
    · simp only [List.filter_cons, List.countP_cons, hp, Bool.not_false, if_pos,
        List.length_cons, if_neg, Bool.false_eq_true, not_false_iff]
      omega

/-- C5: the Cleaner's output rows are exactly the cleaned images, in
order, of the input rows whose date parses; the output row count is the
input count minus the number of unparseable-date rows.  (The filter
equation shows no other row-level filtering occurs.) -/
theorem C5_date_filtering (pnum : String → Option ℚ) (pdate : String → Option ℤ)
    (df0 df' : DataFrame) (h : clean_matchlog pnum pdate df0 = Except.ok df') :
    df'.rows = (df0.rows.filter
        (fun r => decide (toDatetime pdate (getCell r Col.Date) ≠ Cell.na))).map
        (cleanRow pnum pdate (keepCols df0)) ∧
    df'.rows.length = df0.rows.length -
      df0.rows.countP (fun r => decide (toDatetime pdate (getCell r Col.Date) = Cell.na)) := by
  obtain ⟨hreq, hdf⟩ := clean_ok_inv h
  subst hdf
  have kDate : Col.Date ∈ keepCols df0 := (mem_keepCols df0 _).mpr ⟨by decide, hreq.2.2.2.2.2⟩
  have hfun : ((fun r => decide (getCell r Col.Date ≠ Cell.na)) ∘
      cleanRow pnum pdate (keepCols df0)) =
      fun r0 => decide (toDatetime pdate (getCell r0 Col.Date) ≠ Cell.na) := by
    funext r0
    simp only [Function.comp]
    rw [getCell_cleanRow_Date, getCell_projectRow, if_pos kDate]
  have hrows : (cleanOut pnum pdate df0).rows =
      (df0.rows.filter
        (fun r => decide (toDatetime pdate (getCell r Col.Date) ≠ Cell.na))).map
        (cleanRow pnum pdate (keepCols df0)) := by
    show ((df0.rows.map (cleanRow pnum pdate (keepCols df0))).filter
        (fun r => decide (getCell r Col.Date ≠ Cell.na))) = _
    rw [List.filter_map, hfun]
  refine ⟨hrows, ?_⟩
  rw [hrows, List.length_map]
  have hadd := filter_length_add_countP
    (fun r => decide (toDatetime pdate (getCell r Col.Date) ≠ Cell.na)) df0.rows
  have hcnt : df0.rows.countP
      (fun a => ! decide (toDatetime pdate (getCell a Col.Date) ≠ Cell.na))
      = df0.rows.countP (fun r => decide (toDatetime pdate (getCell r Col.Date) = Cell.na)) := by
    congr 1
    funext a
    simp only [ne_eq, decide_not, Bool.not_not]
  rw [hcnt] at hadd
  omega

/-- C5 witness: on the concrete frame `dfW5` (three rows, one with an
unparseable date) the cleaned output has the claimed cardinality 3 - 1. -/
theorem C5_witness :
    (cleanOut pnumW pdateW dfW5).rows.length =
      dfW5.rows.length - dfW5.rows.countP
        (fun r => decide (toDatetime pdateW (getCell r Col.Date) = Cell.na)) ∧
    (cleanOut pnumW pdateW dfW5).rows.length = 2 ∧ dfW5.rows.length = 3 :=
  ⟨(C5_date_filtering pnumW pdateW dfW5 (cleanOut pnumW pdateW dfW5) rfl).2,
    by decide, by decide⟩

/-- C3 counterexample: the concrete raw input `dfC3` lacks only the
`Poss` column, yet `clean_matchlog` does not complete: the coercion loop
reads the absent column and raises a KeyError. -/
theorem C3_counterexample :
    Col.Poss ∉ dfC3.cols ∧ clean_matchlog pnumW pdateW dfC3 = Except.error "KeyError" :=
  ⟨by simp [dfC3], by rfl⟩

/-- C3 (amended): when the six columns read unconditionally by the
Cleaner (Date, GF, GA, xG, xGA, Poss) are all present, `clean_matchlog`
completes without error and its projection keeps exactly the useful
columns present in the raw input, omitting the absent ones, followed by
the three derived columns. -/
theorem C3_projection (pnum : String → Option ℚ) (pdate : String → Option ℤ)
    (df0 : DataFrame) (h : requiredPresent df0) :
    ∃ df', clean_matchlog pnum pdate df0 = Except.ok df' ∧
      df'.cols = useful_cols.filter (fun c => decide (c ∈ df0.cols)) ++
        [Col.GoalDiff, Col.xGDiff, Col.Outcome] :=
  ⟨cleanOut pnum pdate df0, clean_ok_of_required pnum pdate df0 h, rfl⟩

/-- C3 witness: the frame `dfC3b` carries all required columns but lacks
Comp, Venue, Result, Team and Season; cleaning succeeds and the output
schema omits exactly those. -/
theorem C3_witness :
    requiredPresent dfC3b ∧
    ∃ df', clean_matchlog pnumW pdateW dfC3b = Except.ok df' ∧
      df'.cols = [Col.Date, Col.GF, Col.GA, Col.xG, Col.xGA, Col.Poss, Col.Opponent,
        Col.GoalDiff, Col.xGDiff, Col.Outcome] := by
  refine ⟨by decide, ?_⟩
  obtain ⟨df', hok, hcols⟩ := C3_projection pnumW pdateW dfC3b (by decide)
  exact ⟨df', hok, by rw [hcols]; rfl⟩

/-- C6: merging cleaned team datasets yields the ordered concatenation of
their row lists (so every row, with its team and season cells, appears
verbatim, grouped by team in processing order), and the combined size is
the sum of the individual sizes. -/
theorem C6_merge_additivity (fs : FileSys) (dfs : List DataFrame) :
    (merge_teams fs dfs).1.rows = (dfs.map DataFrame.rows).flatten ∧
    (merge_teams fs dfs).1.rows.length = (dfs.map (fun d => d.rows.length)).sum := by
  refine ⟨rfl, ?_⟩
  show (concatDFs dfs).rows.length = _
  rw [show (concatDFs dfs).rows = (dfs.map DataFrame.rows).flatten from rfl,
    List.length_flatten, List.map_map]
  rfl

/-- C4: a 429 response makes `safe_get` sleep the fixed 60-second
cooldown and retry the same URL (the whole remaining behaviour is the
recursive call, with the cooldown and the repeated URL prepended); in
particular on the trace 429-then-200 it returns the 200 response after
exactly one cooldown, with no failure. -/
theorem C4_rate_limit_retry (url : String) (r : HttpResponse) (rest : List NetEvent)
    (h : r.status_code = 429) :
    safe_get url (NetEvent.resp r :: rest) =
      ((safe_get url rest).1, Sleep.cooldown60 :: (safe_get url rest).2.1,
       url :: (safe_get url rest).2.2.1, (safe_get url rest).2.2.2) ∧
    (∀ r2 : HttpResponse, r2.status_code = 200 →
      safe_get url [NetEvent.resp r, NetEvent.resp r2] =
        (some r2, [Sleep.cooldown60, Sleep.polite], [url, url], [])) := by
  constructor
  · simp [safe_get, h]
  · intro r2 h2
    simp [safe_get, h, h2]

/-- C4 witness: the concrete trace [429, 200] on URL "u". -/
theorem C4_witness :
    resp429.status_code = 429 ∧ resp200.status_code = 200 ∧
    safe_get "u" [NetEvent.resp resp429, NetEvent.resp resp200] =
      (some resp200, [Sleep.cooldown60, Sleep.polite], ["u", "u"], []) :=
  ⟨rfl, rfl, (C4_rate_limit_retry "u" resp429 [NetEvent.resp resp200] rfl).2 resp200 rfl⟩

/-- C9: a response that is neither 200 nor 429 makes `safe_get` report
failure for the URL with no retry and no sleep; a network-level exception
reports failure after the single fixed 10-second backoff, with no
retry. -/
theorem C9_failure_no_retry (url : String) (r : HttpResponse) (m : String)
    (rest : List NetEvent) :
    (r.status_code ≠ 200 → r.status_code ≠ 429 →
      safe_get url (NetEvent.resp r :: rest) = (none, [], [url], rest)) ∧
    safe_get url (NetEvent.exn m :: rest) = (none, [Sleep.backoff10], [url], rest) := by
  constructor
  · intro h200 h429
    simp [safe_get, h429, h200]
  · rfl

/-- C9 witness: a concrete 500 response and a concrete exception. -/
theorem C9_witness :
    resp500.status_code ≠ 200 ∧ resp500.status_code ≠ 429 ∧
    safe_get "u" [NetEvent.resp resp500] = (none, [], ["u"], []) ∧
    safe_get "u" [NetEvent.exn "boom"] = (none, [Sleep.backoff10], ["u"], []) :=
  ⟨by decide, by decide,
   (C9_failure_no_retry "u" resp500 "boom" []).1 (by decide) (by decide),
   (C9_failure_no_retry "u" resp500 "boom" []).2⟩

/-- C2: when a readable cache artifact exists for the team,
`download_matchlogs` returns the cached frame as-is, leaves the world
untouched, performs no sleep and requests no URL — for any requested
season list; running it with a second season list (in particular running
it twice, since the world is returned unchanged) yields the identical
frame. -/
theorem C2_cache_bypass (read_html : ReadHtml) (team_name team_id : String)
    (seasons seasons2 : List String) (w : World) (df : DataFrame)
    (h : lookupFile w.fs (file_path team_name) = some (FileData.csv df)) :
    download_matchlogs read_html team_name team_id seasons w = (some df, w, [], []) ∧
    download_matchlogs read_html team_name team_id seasons2 w = (some df, w, [], []) := by
  constructor <;> simp only [download_matchlogs, h]

/-- C2 witness: a concrete world caching team "t", queried with two
different season lists. -/
theorem C2_witness :
    lookupFile wCached.fs (file_path "t") = some (FileData.csv dfCached) ∧
    download_matchlogs rhEmpty "t" "id" ["2023-2024"] wCached
      = (some dfCached, wCached, [], []) ∧
    download_matchlogs rhEmpty "t" "id" ["2024-2025", "2025-2026"] wCached
      = (some dfCached, wCached, [], []) := by
  have h : lookupFile wCached.fs (file_path "t") = some (FileData.csv dfCached) := by decide
  exact ⟨h,
    (C2_cache_bypass rhEmpty "t" "id" ["2023-2024"] ["2024-2025", "2025-2026"]
      wCached dfCached h).1,
    (C2_cache_bypass rhEmpty "t" "id" ["2023-2024"] ["2024-2025", "2025-2026"]
      wCached dfCached h).2⟩

/-- C10: when no cache artifact exists and the season loop collects no
chunk at all, `download_matchlogs` returns absence and the filesystem is
left exactly as it was — no cache artifact is written. -/
theorem C10_no_cache_on_failure (read_html : ReadHtml) (team_name team_id : String)
    (seasons : List String) (w : World)
    (h1 : lookupFile w.fs (file_path team_name) = none)
    (h2 : (fetchSeasons read_html team_name team_id seasons w.net).1 = []) :
    (download_matchlogs read_html team_name team_id seasons w).1 = none ∧
    (download_matchlogs read_html team_name team_id seasons w).2.1.fs = w.fs := by
  constructor <;> simp only [download_matchlogs, h1, h2]

/-- C10 witness: a concrete world whose only remote event is a 500
response, so the single requested season yields nothing. -/
theorem C10_witness :
    lookupFile wFail.fs (file_path "t") = none ∧
    (fetchSeasons rhEmpty "t" "id" ["2024-2025"] wFail.net).1 = [] ∧
    (download_matchlogs rhEmpty "t" "id" ["2024-2025"] wFail).1 = none ∧
    (download_matchlogs rhEmpty "t" "id" ["2024-2025"] wFail).2.1.fs = wFail.fs := by
  have h1 : lookupFile wFail.fs (file_path "t") = none := rfl
  have h2 : (fetchSeasons rhEmpty "t" "id" ["2024-2025"] wFail.net).1 = [] := rfl
  exact ⟨h1, h2,
    (C10_no_cache_on_failure rhEmpty "t" "id" ["2024-2025"] wFail h1 h2).1,
    (C10_no_cache_on_failure rhEmpty "t" "id" ["2024-2025"] wFail h1 h2).2⟩

theorem mem_setColConst_self (df : DataFrame) (c : Col) (v : Cell) :
    c ∈ (setColConst df c v).cols := by
  by_cases h : c ∈ df.cols <;> simp [setColConst, h]

theorem mem_setColConst_mono {df : DataFrame} {c0 : Col} (c : Col) (v : Cell)
    (h : c0 ∈ df.cols) : c0 ∈ (setColConst df c v).cols := by
  by_cases hc : c ∈ df.cols <;> simp [setColConst, hc, h]

theorem tagged_row_vals (tbl : DataFrame) (se tn : String) (r : Row)
    (h : r ∈ (setColConst (setColConst tbl Col.Season (Cell.str se))
        Col.Team (Cell.str tn)).rows) :
    getCell r Col.Team = Cell.str tn ∧ getCell r Col.Season = Cell.str se := by
  simp only [setColConst, List.map_map] at h
  obtain ⟨r0, hr0, hrw⟩ := List.mem_map.mp h
  subst hrw
  simp only [Function.comp]
  constructor
  · rw [getCell_setCell]; simp
  · rw [getCell_setCell, if_neg (by decide), getCell_setCell]; simp

theorem fetchSeason_some {read_html : ReadHtml} {tn tid se : String}
    {net : List NetEvent} {df : DataFrame}
    (h : (fetchSeason read_html tn tid se net).1 = some df) :
    ∃ tbl, df = setColConst (setColConst tbl Col.Season (Cell.str se))
      Col.Team (Cell.str tn) := by
  simp only [fetchSeason] at h
  split at h
  · cases h
  · split at h
    · cases h
    · cases h
    · exact ⟨_, ((Option.some.injEq _ _).mp h).symm⟩

theorem fetchSeasons_mem {read_html : ReadHtml} {tn tid : String} :
    ∀ (seasons : List String) (net : List NetEvent) (d : DataFrame),
      d ∈ (fetchSeasons read_html tn tid seasons net).1 →
      ∃ se ∈ seasons, ∃ tbl,
        d = setColConst (setColConst tbl Col.Season (Cell.str se)) Col.Team (Cell.str tn)
  | [], _, d, h => by simp [fetchSeasons] at h
  | se :: rest, net, d, h => by
    simp only [fetchSeasons] at h
    cases ha : (fetchSeason read_html tn tid se net).1 with
    | some df =>
      rw [ha] at h
      rcases List.mem_cons.mp h with h | h
      · obtain ⟨tbl, htbl⟩ := fetchSeason_some ha
        exact ⟨se, List.mem_cons_self _ _, tbl, h ▸ htbl⟩
      · obtain ⟨se2, hse2, tbl, htbl⟩ := fetchSeasons_mem rest _ d h
        exact ⟨se2, List.mem_cons_of_mem _ hse2, tbl, htbl⟩
    | none =>
      rw [ha] at h
      obtain ⟨se2, hse2, tbl, htbl⟩ := fetchSeasons_mem rest _ d h
      exact ⟨se2, List.mem_cons_of_mem _ hse2, tbl, htbl⟩

theorem mem_unionCols {c : Col} {acc cs : List Col} :
    c ∈ unionCols acc cs ↔ c ∈ acc ∨ c ∈ cs := by
  simp only [unionCols, List.mem_append, List.mem_filter, decide_eq_true_eq]
  by_cases h : c ∈ acc <;> simp [h]

theorem mem_foldl_unionCols (c : Col) :
    ∀ (L : List (List Col)) (acc : List Col),
      c ∈ L.foldl unionCols acc ↔ c ∈ acc ∨ ∃ cs ∈ L, c ∈ cs
  | [], acc => by simp
  | cs :: L, acc => by
    simp only [List.foldl_cons]
    rw [mem_foldl_unionCols c L (unionCols acc cs), mem_unionCols]
    simp only [List.mem_cons]
    constructor
    · rintro ((h | h) | ⟨cs2, h2, h3⟩)
      · exact Or.inl h
      · exact Or.inr ⟨cs, Or.inl rfl, h⟩
      · exact Or.inr ⟨cs2, Or.inr h2, h3⟩
    · rintro (h | ⟨cs2, (rfl | h2), h3⟩)
      · exact Or.inl (Or.inl h)
      · exact Or.inl (Or.inr h3)
      · exact Or.inr ⟨cs2, h2, h3⟩

theorem mem_concatDFs_cols {c : Col} {dfs : List DataFrame} :
    c ∈ (concatDFs dfs).cols ↔ ∃ d ∈ dfs, c ∈ d.cols := by
  show c ∈ (dfs.map DataFrame.cols).foldl unionCols [] ↔ _
  rw [mem_foldl_unionCols]
  simp

theorem mem_concatDFs_rows {r : Row} {dfs : List DataFrame} :
    r ∈ (concatDFs dfs).rows ↔ ∃ d ∈ dfs, r ∈ d.rows := by
  show r ∈ (dfs.map DataFrame.rows).flatten ↔ _
  rw [List.mem_flatten]
  simp

theorem download_fresh_some {read_html : ReadHtml} {tn tid : String}
    {seasons : List String} {w : World} {df : DataFrame} {w' : World}
    {s : List Sleep} {u : List String}
    (hc : lookupFile w.fs (file_path tn) = none)
    (h : download_matchlogs read_html tn tid seasons w = (some df, w', s, u)) :
    df = concatDFs (fetchSeasons read_html tn tid seasons w.net).1 ∧
    (fetchSeasons read_html tn tid seasons w.net).1 ≠ [] := by
  simp only [download_matchlogs, hc] at h
  cases hfs : (fetchSeasons read_html tn tid seasons w.net).1 with
  | nil => rw [hfs] at h; simp [Prod.mk.injEq] at h
  | cons d ds =>
    rw [hfs] at h
    simp only [Prod.mk.injEq] at h
    exact ⟨((Option.some.injEq _ _).mp h.1).symm, List.cons_ne_nil d ds⟩

theorem download_fresh_tags {read_html : ReadHtml} {tn tid : String}
    {seasons : List String} {w : World} {df : DataFrame} {w' : World}
    {s : List Sleep} {u : List String}
    (hc : lookupFile w.fs (file_path tn) = none)
    (h : download_matchlogs read_html tn tid seasons w = (some df, w', s, u)) :
    Col.Team ∈ df.cols ∧ Col.Season ∈ df.cols ∧
    ∀ r ∈ df.rows, getCell r Col.Team = Cell.str tn ∧
      ∃ se ∈ seasons, getCell r Col.Season = Cell.str se := by
  obtain ⟨hdf, hne⟩ := download_fresh_some hc h
  subst hdf
  obtain ⟨d0, hd0⟩ := List.exists_mem_of_ne_nil _ hne
  obtain ⟨se0, hse0, tbl0, htbl0⟩ := fetchSeasons_mem _ _ d0 hd0
  refine ⟨?_, ?_, ?_⟩
  · exact mem_concatDFs_cols.mpr ⟨d0, hd0, by rw [htbl0]; exact mem_setColConst_self _ _ _⟩
  · exact mem_concatDFs_cols.mpr ⟨d0, hd0, by
      rw [htbl0]
      exact mem_setColConst_mono _ _ (mem_setColConst_self _ _ _)⟩
  · intro r hr
    obtain ⟨d, hd, hrd⟩ := mem_concatDFs_rows.mp hr
    obtain ⟨se, hse, tbl, htbl⟩ := fetchSeasons_mem _ _ d hd
    subst htbl
    obtain ⟨ht, hs⟩ := tagged_row_vals tbl se tn r hrd
    exact ⟨ht, se, hse, hs⟩

/-- C7: every row of the merged dataset built from cleanings of freshly
downloaded team frames has a non-null date (the Cleaner dropped null
dates), a non-null team and a non-null season (the season loop tagged
every row with the caller-supplied team and season strings before the
frame entered the pipeline). -/
theorem C7_nonnull_invariant (pnum : String → Option ℚ) (pdate : String → Option ℤ)
    (cleaned : List DataFrame)
    (horigin : ∀ d ∈ cleaned, ∃ read_html tn tid seasons w df w' s u,
      lookupFile w.fs (file_path tn) = none ∧
      download_matchlogs read_html tn tid seasons w = (some df, w', s, u) ∧
      clean_matchlog pnum pdate df = Except.ok d) :
    ∀ fs r, r ∈ (merge_teams fs cleaned).1.rows →
      getCell r Col.Date ≠ Cell.na ∧ getCell r Col.Team ≠ Cell.na ∧
      getCell r Col.Season ≠ Cell.na := by
  intro fs r hr
  have hr' : ∃ d ∈ cleaned, r ∈ d.rows := mem_concatDFs_rows.mp hr
  obtain ⟨d, hd, hrd⟩ := hr'
  obtain ⟨read_html, tn, tid, seasons, w, df, w', s, u, hc, hdl, hcl⟩ := horigin d hd
  obtain ⟨hreq, hdf⟩ := clean_ok_inv hcl
  subst hdf
  rw [mem_cleanOut_rows] at hrd
  obtain ⟨⟨r0, hr0, hrw⟩, hdate⟩ := hrd
  obtain ⟨hTcol, hScol, htags⟩ := download_fresh_tags hc hdl
  have kTeam : Col.Team ∈ keepCols df := (mem_keepCols df _).mpr ⟨by decide, hTcol⟩
  have kSeason : Col.Season ∈ keepCols df := (mem_keepCols df _).mpr ⟨by decide, hScol⟩
  obtain ⟨htv, se, hse, hsv⟩ := htags r0 hr0
  subst hrw
  refine ⟨hdate, ?_, ?_⟩
  · rw [getCell_cleanRow_Team, getCell_projectRow, if_pos kTeam, htv]
    simp
  · rw [getCell_cleanRow_Season, getCell_projectRow, if_pos kSeason, hsv]
    simp

/-- C7 witness: a concrete one-team pipeline run (fresh download of team
"t" for season 2024-2025, cleaned, merged); its single merged row has
non-null date, team and season. -/
theorem C7_witness :
    getCell rowC7 Col.Date ≠ Cell.na ∧ getCell rowC7 Col.Team ≠ Cell.na ∧
    getCell rowC7 Col.Season ≠ Cell.na := by
  have hrows : (merge_teams [] [cleanC7]).1.rows = [rowC7] := rfl
  refine C7_nonnull_invariant pnumW pdateW [cleanC7] ?_ [] rowC7
    (by rw [hrows]; exact List.mem_singleton_self _)
  intro d hd
  rw [List.mem_singleton] at hd
  subst hd
  exact ⟨rhC7, "t", "id", ["2024-2025"], wC7, dfC7,
    (download_matchlogs rhC7 "t" "id" ["2024-2025"] wC7).2.1,
    (download_matchlogs rhC7 "t" "id" ["2024-2025"] wC7).2.2.1,
    (download_matchlogs rhC7 "t" "id" ["2024-2025"] wC7).2.2.2, rfl, rfl, rfl⟩
